import Mathlib

/-!
Shallow embedding of the grading / variant-generation engine emitted by
src/server/scorm-exporter.ts (the JS player embedded in the exported SCORM
package).  JS numbers are modelled as Int / Rat, JS arrays as List, JS
objects used as maps as association lists, and the absent value
(undefined / null) explicitly.
-/

namespace Scorm

/-- A learner answer value as the player stores it: JS undefined / null
(absent), a number, an array of numbers, or a plain object mapping left
indices to right indices (used for matching answers). -/
inductive JSAnswer where
  | undef
  | num (n : Int)
  | list (xs : List Int)
  | map (pairs : List (Int × Int))
  deriving DecidableEq, Repr

/-- JS property lookup `value[k]` as used in the matching branch of
checkAnswer: a plain object yields its stored value (object keys are
unique, so first match suffices), an array yields the element at a
non-negative in-range index, and any other value has no numeric
properties (lookup gives undefined). -/
def jsGet : JSAnswer → Int → Option Int
  | JSAnswer.map m, k => (m.find? (fun kv => kv.1 == k)).map (fun kv => kv.2)
  | JSAnswer.list xs, k => if 0 ≤ k then xs.get? k.toNat else Option.none
  | _, _ => Option.none

/-- A question as embedded in TEST_DATA.  The JS payloads q.data.* and
q.correct.* are flattened into optional fields; an absent / non-array JS
field is `Option.none`. -/
structure Question where
  id : Nat
  type : String
  prompt : String := ""
  points : Option Nat := Option.none
  dataOptions : Option (List String) := Option.none
  dataLeft : Option (List String) := Option.none
  dataRight : Option (List String) := Option.none
  dataItems : Option (List String) := Option.none
  correctIndex : Option Int := Option.none
  correctIndices : Option (List Int) := Option.none
  pairs : Option (List (Int × Int)) := Option.none
  correctOrder : Option (List Int) := Option.none
  deriving DecidableEq, Repr

/-- checkAnswer (scorm-exporter.ts 1572-1632): score of one question,
with partial credit.  Follows the source branch by branch; the initial
guard is the JS check answer === undefined || answer === null. -/
def checkAnswer (q : Question) (answer : JSAnswer) : ℚ :=
  match answer with
  | JSAnswer.undef => 0
  | _ =>
  if q.type = "single" then
    match q.correctIndex, answer with
    | some c, JSAnswer.num a => if a = c then 1 else 0
    | _, _ => 0
  else if q.type = "multiple" then
    let correctIndices := q.correctIndices.getD []
    let totalCorrect := correctIndices.length
    if totalCorrect = 0 then 0
    else
      let answerList := match answer with | JSAnswer.list xs => xs | _ => []
      let correctSelections := answerList.countP (fun i => decide (i ∈ correctIndices))
      let incorrectSelections := answerList.countP (fun i => decide (i ∉ correctIndices))
      max 0 (((correctSelections : ℚ) - (incorrectSelections : ℚ)) / (totalCorrect : ℚ))
  else if q.type = "matching" then
    let correctPairs := q.pairs.getD []
    let totalPairs := correctPairs.length
    if totalPairs = 0 then 0
    else
      let correctCount := correctPairs.countP (fun p => jsGet answer p.1 == some p.2)
      (correctCount : ℚ) / (totalPairs : ℚ)
  else if q.type = "ranking" then
    let order := match answer with | JSAnswer.list xs => xs | _ => []
    let correctOrder := q.correctOrder.getD []
    if correctOrder.length = 0 then 0
    else if order.length ≠ correctOrder.length then 0
    else
      let correctPositions := (order.zip correctOrder).countP (fun p => p.1 == p.2)
      (correctPositions : ℚ) / (correctOrder.length : ℚ)
  else 0

/-- A pass rule object {type, value}; a missing rule is `Option.none` at
use sites. -/
structure PassRule where
  type : String
  value : ℚ
  deriving DecidableEq, Repr

/-- checkPassRuleWithPartial (scorm-exporter.ts 1645-1651). -/
def checkPassRuleWithPartial (rule : Option PassRule) (percent : ℚ)
    (fullyCorrectCount : ℚ) : Bool :=
  match rule with
  | Option.none => true
  | some r =>
    if r.type = "percent" then decide (percent ≥ r.value)
    else decide (fullyCorrectCount ≥ r.value)

/-- A recommended remediation course attached to a section. -/
structure Course where
  title : String
  url : String
  deriving DecidableEq, Repr

/-- One element of TEST_DATA.sections. -/
structure TestSection where
  topicId : Int
  topicName : String
  questions : List Question
  drawCount : Nat
  topicPassRule : Option PassRule := Option.none
  topicFeedback : Option String := Option.none
  recommendedCourses : List Course := []
  deriving DecidableEq, Repr

/-- The embedded TEST_DATA object (fields the engine reads). -/
structure TestData where
  sections : List TestSection
  overallPassRule : Option PassRule := Option.none
  timeLimitMinutes : Option Nat := Option.none
  maxAttempts : Option Nat := Option.none
  deriving Repr

/-- One element of state.flatQuestions: a drawn question together with
its topic. -/
structure FlatQuestion where
  question : Question
  topicId : Int
  topicName : String
  deriving DecidableEq, Repr

/-- One per-topic bucket of calculateResults (the topicData entries /
topicResults items).  percent and passed are filled in by the final
loop; passed stays JS null (`Option.none`) for a topic with no rule. -/
structure TopicData where
  topicId : Int
  topicName : String
  correct : Nat
  earnedPoints : ℚ
  possiblePoints : ℚ
  total : Nat
  passRule : Option PassRule
  topicFeedback : Option String
  recommendedCourses : List Course
  percent : ℚ := 0
  passed : Option Bool := Option.none
  deriving DecidableEq, Repr

/-- Accumulator of the per-question loop of calculateResults. -/
structure Acc where
  totalEarnedPoints : ℚ
  totalPossiblePoints : ℚ
  totalFullyCorrect : Nat
  totalQuestions : Nat
  topicData : List TopicData
  deriving Repr

/-- The result object returned by calculateResults. -/
structure Report where
  correct : Nat
  totalQuestions : Nat
  earnedPoints : ℚ
  possiblePoints : ℚ
  percent : ℚ
  passed : Bool
  topicResults : List TopicData
  deriving DecidableEq, Repr

/-- JS q.points || 1: an absent or zero point weight counts as 1. -/
def qPoints (q : Question) : ℚ :=
  match q.points with
  | some p => if p = 0 then 1 else (p : ℚ)
  | Option.none => 1

/-- Increments one topic bucket with one question outcome (the four
topicData mutations in the loop body of calculateResults). -/
def bumpTopic (pts score : ℚ) (t : TopicData) : TopicData :=
  { t with
    total := t.total + 1
    possiblePoints := t.possiblePoints + pts
    earnedPoints := t.earnedPoints + pts * score
    correct := t.correct + (if score = 1 then 1 else 0) }

/-- Body of the state.flatQuestions.forEach loop of calculateResults
(scorm-exporter.ts 1506-1535).  The JS looks the topic section up with
TEST_DATA.sections.find and dereferences it unconditionally, so a flat
question whose topicId matches no section is a crash, modelled as
`Option.none`.  The JS topicData object is keyed by topicId; it is kept
here as an association list in first-insertion order (no claim below
depends on the enumeration order of the keys). -/
def accumQuestion (sections : List TestSection) (answers : Nat → JSAnswer)
    (acc : Option Acc) (fq : FlatQuestion) : Option Acc :=
  match acc with
  | Option.none => Option.none
  | some a =>
    let q := fq.question
    let answer := answers q.id
    let score := checkAnswer q answer
    let pts := qPoints q
    let a1 : Acc :=
      { a with
        totalPossiblePoints := a.totalPossiblePoints + pts
        totalEarnedPoints := a.totalEarnedPoints + pts * score
        totalQuestions := a.totalQuestions + 1
        totalFullyCorrect := a.totalFullyCorrect + (if score = 1 then 1 else 0) }
    if a1.topicData.any (fun t => t.topicId == fq.topicId) then
      some { a1 with
             topicData := a1.topicData.map
               (fun t => if t.topicId == fq.topicId then bumpTopic pts score t else t) }
    else
      match sections.find? (fun sec => sec.topicId == fq.topicId) with
      | Option.none => Option.none
      | some sec =>
        let t0 : TopicData :=
          { topicId := fq.topicId
            topicName := fq.topicName
            correct := 0
            earnedPoints := 0
            possiblePoints := 0
            total := 0
            passRule := sec.topicPassRule
            topicFeedback := sec.topicFeedback
            recommendedCourses := sec.recommendedCourses }
        some { a1 with topicData := a1.topicData ++ [bumpTopic pts score t0] }

/-- Body of the Object.keys(topicData).forEach loop of calculateResults
(scorm-exporter.ts 1545-1556): fills in percent and passed of one
topic bucket and threads the allTopicsPassed flag. -/
def topicStep (acc : List TopicData × Bool) (t : TopicData) : List TopicData × Bool :=
  let pct := if t.possiblePoints > 0 then t.earnedPoints / t.possiblePoints * 100 else 0
  match t.passRule with
  | some r =>
    let p := checkPassRuleWithPartial (some r) pct (t.correct : ℚ)
    (acc.1 ++ [{ t with percent := pct, passed := some p }], acc.2 && p)
  | Option.none =>
    (acc.1 ++ [{ t with percent := pct, passed := Option.none }], acc.2)

/-- calculateResults (scorm-exporter.ts 1499-1569). -/
def calculateResults (td : TestData) (flatQuestions : List FlatQuestion)
    (answers : Nat → JSAnswer) : Option Report :=
  match flatQuestions.foldl (accumQuestion td.sections answers) (some ⟨0, 0, 0, 0, []⟩) with
  | Option.none => Option.none
  | some a =>
    let overallPercent :=
      if a.totalPossiblePoints > 0 then a.totalEarnedPoints / a.totalPossiblePoints * 100
      else 0
    let overallPassed :=
      checkPassRuleWithPartial td.overallPassRule overallPercent (a.totalFullyCorrect : ℚ)
    let tp := a.topicData.foldl topicStep ([], true)
    some
      { correct := a.totalFullyCorrect
        totalQuestions := a.totalQuestions
        earnedPoints := a.totalEarnedPoints
        possiblePoints := a.totalPossiblePoints
        percent := overallPercent
        passed := overallPassed && tp.2
        topicResults := tp.1 }

/-- A value written to the SCORM runtime channel (SCORM.setValue
stringifies everything; numbers and strings are kept apart here). -/
inductive RtValue where
  | num (q : ℚ)
  | str (s : String)
  deriving DecidableEq, Repr

/-- One objective record as built in finishScorm. -/
structure Objective where
  id : String
  score : Int
  status : String
  deriving DecidableEq, Repr

/-- One interaction record as built in finishScorm (its construction
from a question and an answer is not needed by the claims below, so
records are taken as given to the writer). -/
structure Interaction where
  id : String
  itype : String
  result : String
  response : String
  correct : String
  description : String
  deriving DecidableEq, Repr

/-- SCORM.setScore (scorm-exporter.ts 328-333) as a list of key/value
writes. -/
def setScoreWrites (raw min max scaled : ℚ) : List (String × RtValue) :=
  [("cmi.score.raw", RtValue.num raw),
   ("cmi.score.min", RtValue.num min),
   ("cmi.score.max", RtValue.num max),
   ("cmi.score.scaled", RtValue.num scaled)]

/-- SCORM.setObjective (scorm-exporter.ts 343-347). -/
def setObjectiveWrites (index : Nat) (o : Objective) : List (String × RtValue) :=
  [("cmi.objectives." ++ toString index ++ ".id", RtValue.str o.id),
   ("cmi.objectives." ++ toString index ++ ".score.raw", RtValue.num (o.score : ℚ)),
   ("cmi.objectives." ++ toString index ++ ".success_status", RtValue.str o.status)]

/-- SCORM.setInteraction (scorm-exporter.ts 349-367): the correct
pattern is only written when non-empty, the description only when
truthy. -/
def setInteractionWrites (index : Nat) (i : Interaction) : List (String × RtValue) :=
  [("cmi.interactions." ++ toString index ++ ".id", RtValue.str i.id),
   ("cmi.interactions." ++ toString index ++ ".type", RtValue.str i.itype),
   ("cmi.interactions." ++ toString index ++ ".result", RtValue.str i.result),
   ("cmi.interactions." ++ toString index ++ ".learner_response", RtValue.str i.response)]
  ++ (if i.correct ≠ "" then
        [("cmi.interactions." ++ toString index ++ ".correct_responses.0.pattern",
          RtValue.str i.correct)]
      else [])
  ++ (if i.description ≠ "" then
        [("cmi.interactions." ++ toString index ++ ".description", RtValue.str i.description)]
      else [])

/-- Enumerates a list with indices 0,1,2,... and concatenates the
per-index writes (the for loops of SCORM.finish). -/
def indexedWrites (f : Nat → α → List (String × RtValue)) (xs : List α) :
    List (String × RtValue) :=
  (xs.enum.map (fun p => f p.1 p.2)).flatten

/-- SCORM.finish (scorm-exporter.ts 370-399) as the sequence of
key/value writes it performs (the trailing Commit / Terminate API calls
are not writes).  Parameter names follow the source; the caller decides
what is passed for earnedPoints / possiblePoints. -/
def scormFinish (earnedPoints possiblePoints : ℚ) (passed : Bool)
    (objectives : List Objective) (interactions : List Interaction) :
    List (String × RtValue) :=
  let scaled := if possiblePoints > 0 then earnedPoints / possiblePoints else 0
  setScoreWrites earnedPoints 0 possiblePoints scaled
  ++ [("cmi.completion_status", RtValue.str "completed"),
      ("cmi.success_status", RtValue.str (if passed then "passed" else "failed")),
      ("cmi.progress_measure", RtValue.str "1"),
      ("cmi.exit", RtValue.str "normal")]
  ++ indexedWrites setObjectiveWrites objectives
  ++ indexedWrites setInteractionWrites interactions

/-- JS Math.round: round half away from zero upward (floor of x + 1/2
for the non-negative values that occur here). -/
def jsRound (x : ℚ) : Int := Int.floor (x + 1/2)

/-- The objective records finishScorm builds from topicResults
(scorm-exporter.ts 1654-1660). -/
def objectivesOf (results : Report) : List Objective :=
  results.topicResults.map (fun tr =>
    { id := "topic_" ++ toString tr.topicId
      score := jsRound tr.percent
      status := match tr.passed with
                | Option.none => "unknown"
                | some b => if b then "passed" else "failed" })

/-- finishScorm (scorm-exporter.ts 1653-1777) restricted to its SCORM
writes: it reports Math.round(results.percent) as the score with max
100 (see the comment at line 1758 of the source) and results.passed as
success.  The interaction records (built from the flat questions) are a
parameter, and the best-effort webhook POST is not a runtime write. -/
def finishScorm (results : Report) (interactions : List Interaction) :
    List (String × RtValue) :=
  let percentScore : Int := jsRound results.percent
  scormFinish (percentScore : ℚ) 100 results.passed (objectivesOf results) interactions

/-- Side effects of a state-machine step that are visible outside the
state object: a transient toast, a render call (rendering with
currentIndex past the last question shows results and triggers
finishScorm, i.e. the runtime writes), and the suspend-data write of
the attempts-used counter. -/
inductive Effect where
  | toast (msg : String)
  | render
  | suspendWrite (attemptsUsed : Nat)
  deriving DecidableEq, Repr

/-- The mutable state object of the player (scorm-exporter.ts 411-424);
DOM-only fields are omitted, the interval handle is kept as a flag. -/
structure AppState where
  phase : String := "start"
  currentIndex : Nat := 0
  answers : Nat → JSAnswer := fun _ => JSAnswer.undef
  flatQuestions : List FlatQuestion := []
  timerInterval : Bool := false
  remainingSeconds : Option Int := Option.none
  timeExpired : Bool := false
  submitted : Bool := false
  answerConfirmed : Bool := false
  feedbackShown : Bool := false

/-- hasAnswer (scorm-exporter.ts 776-795) for a present question (the
JS null-question guard lives at the call site).  For matching, a JS
object's keys are unique and an array's keys are its indices, so in
both cases the key count is the stored-entry count, and all stored
values are numbers by construction. -/
def hasAnswer (q : Question) (answer : JSAnswer) : Bool :=
  if q.type = "single" then
    match answer with | JSAnswer.num _ => true | _ => false
  else if q.type = "multiple" then
    match answer with | JSAnswer.list xs => !xs.isEmpty | _ => false
  else if q.type = "matching" then
    let need := (q.dataLeft.getD []).length
    match answer with
    | JSAnswer.map m => m.length == need
    | JSAnswer.list xs => xs.length == need
    | _ => false
  else if q.type = "ranking" then true
  else !(answer == JSAnswer.undef)

/-- requireAnswerOrToast (scorm-exporter.ts 797-809) without the toast
side effect (the callers below emit the toast when this is false). -/
def requireAnswer (s : AppState) : Bool :=
  match s.flatQuestions.get? s.currentIndex with
  | Option.none => true
  | some fq => hasAnswer fq.question (s.answers fq.question.id)

/-- Clearing the countdown interval (the clearInterval + null pattern). -/
def clearTimer (s : AppState) : AppState := { s with timerInterval := false }

/-- submit (scorm-exporter.ts 1309-1322).  Note that the
requireAnswerOrToast guard runs on every call, also when submit is
invoked from the timer callback. -/
def submit (s : AppState) : AppState × List Effect :=
  if s.submitted then (s, [])
  else if !(requireAnswer s) then (s, [Effect.toast "Сначала ответьте на вопрос"])
  else
    let s1 : AppState := { s with submitted := true }
    let s2 := if s1.timerInterval then clearTimer s1 else s1
    (({ s2 with currentIndex := s2.flatQuestions.length } : AppState), [Effect.render])

/-- updateTimer (scorm-exporter.ts 469-497), one tick of the 1-second
interval. -/
def updateTimer (s : AppState) : AppState × List Effect :=
  if s.submitted then (clearTimer s, [])
  else
    match s.remainingSeconds with
    | Option.none => (clearTimer s, [])
    | some r =>
      if r ≤ 0 then (clearTimer s, [])
      else
        let s1 : AppState := { s with remainingSeconds := some (r - 1) }
        if r - 1 ≤ 0 && !s1.submitted then
          submit (clearTimer { s1 with timeExpired := true })
        else (s1, [])

/-- JS truthiness of the optional numeric config fields (absent, null
and 0 are falsy). -/
def jsTruthy : Option Nat → Bool
  | Option.none => false
  | some n => n != 0

/-- getAttemptsUsed (scorm-exporter.ts 1806-1809): the suspend-data
object is modelled by its attemptsUsed field, absent when the object is
empty or the field is not a number. -/
def getAttemptsUsed (susp : Option Nat) : Nat := susp.getD 0

/-- hasAttemptsLeft (scorm-exporter.ts 1818-1821). -/
def hasAttemptsLeft (td : TestData) (susp : Option Nat) : Bool :=
  if !(jsTruthy td.maxAttempts) then true
  else decide (getAttemptsUsed susp < td.maxAttempts.getD 0)

/-- registerAttemptStart (scorm-exporter.ts 1824-1832): returns the JS
return value, the new suspend object and the writes performed
(setAttemptsUsed writes the whole suspend object through the runtime
channel; its timestamp field is not modelled). -/
def registerAttemptStart (td : TestData) (susp : Option Nat) :
    Bool × Option Nat × List Effect :=
  if !(jsTruthy td.maxAttempts) then (true, susp, [])
  else
    let used := getAttemptsUsed susp
    if used ≥ td.maxAttempts.getD 0 then (false, susp, [])
    else (true, some (used + 1), [Effect.suspendWrite (used + 1)])

/-- initTimer (scorm-exporter.ts 462-467). -/
def initTimer (td : TestData) (s : AppState) : AppState :=
  match td.timeLimitMinutes with
  | some m =>
    if m > 0 then
      { s with remainingSeconds := some ((m : Int) * 60), timerInterval := true }
    else s
  | Option.none => s

/-- startTest (scorm-exporter.ts 742-758): the start → question
transition. -/
def startTest (td : TestData) (susp : Option Nat) (s : AppState) :
    AppState × Option Nat × List Effect :=
  if !(hasAttemptsLeft td susp) then (s, susp, [Effect.toast "Попытки закончились"])
  else
    let reg := registerAttemptStart td susp
    if !reg.1 then (s, reg.2.1, reg.2.2 ++ [Effect.toast "Попытки закончились"])
    else
      let s1 : AppState := { s with phase := "question" }
      (initTimer td s1, reg.2.1, reg.2.2 ++ [Effect.render])

/-- In-place swap of two positions of a JS array (the loop body of
shuffle); positions outside the array do not occur in the source
(Math.floor(Math.random()*(i+1)) lies in [0,i]), the fallback keeps the
function total. -/
def listSwap (l : List α) (i j : Nat) : List α :=
  match l.get? i, l.get? j with
  | some a, some b => (l.set i b).set j a
  | _, _ => l

/-- The Fisher-Yates loop of shuffle (scorm-exporter.ts 575-583),
counting i down; rs i is the random index chosen at position i. -/
def fyAux (rs : Nat → Nat) : List α → Nat → List α
  | arr, 0 => arr
  | arr, i + 1 => fyAux rs (listSwap arr (i + 1) (rs (i + 1))) i

/-- shuffle (scorm-exporter.ts 575-583) with the stream of random
choices made explicit. -/
def shuffle (rs : Nat → Nat) (arr : List α) : List α :=
  fyAux rs arr (arr.length - 1)

/-- The per-section draw of generateVariant (scorm-exporter.ts 524):
shuffle a copy of the pool and take the first drawCount questions. -/
def drawSectionQuestions (sec : TestSection) (rs : Nat → Nat) : List Question :=
  (shuffle rs sec.questions).take sec.drawCount

/-- The draws of all sections of generateVariant (scorm-exporter.ts
523-529), with one random stream per section. -/
def generateVariantDraws (td : TestData) (rss : Nat → Nat → Nat) :
    List (Int × List Question) :=
  (td.sections.enum.map (fun p => (p.2.topicId, drawSectionQuestions p.2 (rss p.1))))

/-- Concrete question fixture: an unanswered single-choice question. -/
def qSingle1 : Question := { id := 1, type := "single", correctIndex := some 0 }

/-- Concrete state fixture: one second left on the timer, the current
single-choice question unanswered, not yet submitted. -/
def expiryState : AppState :=
  { phase := "question", currentIndex := 0,
    flatQuestions := [{ question := qSingle1, topicId := 1, topicName := "T" }],
    timerInterval := true, remainingSeconds := some 1 }

/-- Closed form of one topicStep application to a bucket: percent filled
in and passed decided by the topic rule (JS null when there is none). -/
def topicFinal (t : TopicData) : TopicData :=
  let pct := if t.possiblePoints > 0 then t.earnedPoints / t.possiblePoints * 100 else 0
  match t.passRule with
  | some r =>
    { t with percent := pct,
             passed := some (checkPassRuleWithPartial (some r) pct (t.correct : ℚ)) }
  | Option.none => { t with percent := pct, passed := Option.none }

/-- Fixture: a two-topic test whose overall percent rule (50) is met
while topic B's own rule (90) is not. -/
def witTest : TestData :=
  { sections :=
      [{ topicId := 1, topicName := "A",
         questions := [{ id := 1, type := "single", correctIndex := some 0 }],
         drawCount := 1 },
       { topicId := 2, topicName := "B",
         questions := [{ id := 2, type := "single", correctIndex := some 0 }],
         drawCount := 1,
         topicPassRule := some { type := "percent", value := 90 } }],
    overallPassRule := some { type := "percent", value := 50 } }

/-- Fixture: the flat question list of witTest in section order. -/
def witFlat : List FlatQuestion :=
  [{ question := { id := 1, type := "single", correctIndex := some 0 },
     topicId := 1, topicName := "A" },
   { question := { id := 2, type := "single", correctIndex := some 0 },
     topicId := 2, topicName := "B" }]

/-- Fixture: question 1 answered correctly, question 2 incorrectly. -/
def witAnswers : Nat → JSAnswer := fun i => if i == 1 then JSAnswer.num 0 else JSAnswer.num 1

/-- Fixture: the report calculateResults produces on the fixtures above:
overall 50 percent meets the overall rule, topic B fails its rule, so
the overall passed flag is false. -/
def witReport : Report :=
  { correct := 1, totalQuestions := 2, earnedPoints := 1, possiblePoints := 2,
    percent := 50, passed := false,
    topicResults :=
      [{ topicId := 1, topicName := "A", correct := 1, earnedPoints := 1,
         possiblePoints := 1, total := 1, passRule := Option.none,
         topicFeedback := Option.none, recommendedCourses := [],
         percent := 100, passed := Option.none },
       { topicId := 2, topicName := "B", correct := 0, earnedPoints := 0,
         possiblePoints := 1, total := 1,
         passRule := some { type := "percent", value := 90 },
         topicFeedback := Option.none, recommendedCourses := [],
         percent := 0, passed := some false }] }

lemma countP_mem_le_length_of_nodup {xs C : List Int} (h : xs.Nodup) :
    xs.countP (fun i => decide (i ∈ C)) ≤ C.length := by
  rw [List.countP_eq_length_filter]
  refine List.Subperm.length_le (List.subperm_of_subset (h.filter _) ?_)
  intro a ha
  exact of_decide_eq_true (List.mem_filter.1 ha).2

lemma multiple_le_one {xs C : List Int} (h : xs.Nodup) (hC : C.length ≠ 0) :
    ((xs.countP (fun i => decide (i ∈ C)) : ℚ) -
     (xs.countP (fun i => !decide (i ∈ C)) : ℚ)) / (C.length : ℚ) ≤ 1 := by
  rw [div_le_one (by exact_mod_cast Nat.pos_of_ne_zero hC)]
  have h1 : (xs.countP (fun i => decide (i ∈ C)) : ℚ) ≤ (C.length : ℚ) := by
    exact_mod_cast countP_mem_le_length_of_nodup h
  have h2 : (0:ℚ) ≤ (xs.countP (fun i => !decide (i ∈ C)) : ℚ) := by positivity
  linarith

lemma countP_div_le_one {α : Type} (p : α → Bool) (l : List α) (n : Nat)
    (hl : l.length ≤ n) (hn : n ≠ 0) : ((l.countP p : ℚ)) / (n : ℚ) ≤ 1 := by
  rw [div_le_one (by exact_mod_cast Nat.pos_of_ne_zero hn)]
  exact_mod_cast le_trans (List.countP_le_length _) hl

set_option maxHeartbeats 1000000 in
/-- C1 (amended): for every question of the four types and every answer
value whose selection list is duplicate-free in the multiple case, the
score of checkAnswer lies in the closed interval [0,1], and an absent
(undefined or null) answer scores exactly 0.  (Without the
duplicate-free condition a multiple answer that repeats a correct index
exceeds 1; see the counterexample.) -/
theorem checkAnswer_score_in_unit_interval (q : Question) (a : JSAnswer)
    (hdup : q.type = "multiple" → ∀ xs, a = JSAnswer.list xs → xs.Nodup) :
    0 ≤ checkAnswer q a ∧ checkAnswer q a ≤ 1 ∧ checkAnswer q JSAnswer.undef = 0 := by
  refine ⟨?_, ?_, rfl⟩
  · cases a <;> simp only [checkAnswer] <;> cases hc : q.correctIndex <;>
      (try split_ifs)
    all_goals try norm_num
    all_goals positivity
  · cases a <;> simp only [checkAnswer] <;> cases hc : q.correctIndex <;>
      (try split_ifs)
    all_goals try norm_num
    all_goals try (split_ifs <;> norm_num)
    · exact countP_div_le_one _ (q.pairs.getD []) ((q.pairs.getD []).length) le_rfl
        (by assumption)
    · exact countP_div_le_one _ (q.pairs.getD []) ((q.pairs.getD []).length) le_rfl
        (by assumption)
    · exact multiple_le_one (hdup (by assumption) _ rfl) (by assumption)
    · exact countP_div_le_one _ (q.pairs.getD []) ((q.pairs.getD []).length) le_rfl
        (by assumption)
    · refine countP_div_le_one _ _ ((q.correctOrder.getD []).length) ?_ (by assumption)
      rw [List.length_zip]; exact Nat.min_le_right _ _
    · exact multiple_le_one (hdup (by assumption) _ rfl) (by assumption)
    · exact countP_div_le_one _ (q.pairs.getD []) ((q.pairs.getD []).length) le_rfl
        (by assumption)
    · refine countP_div_le_one _ _ ((q.correctOrder.getD []).length) ?_ (by assumption)
      rw [List.length_zip]; exact Nat.min_le_right _ _
    · exact countP_div_le_one _ (q.pairs.getD []) ((q.pairs.getD []).length) le_rfl
        (by assumption)
    · exact countP_div_le_one _ (q.pairs.getD []) ((q.pairs.getD []).length) le_rfl
        (by assumption)

/-- C1 witness: the amended bound at a concrete single-choice question
and answer. -/
theorem checkAnswer_score_in_unit_interval_witness :
    0 ≤ checkAnswer { id := 1, type := "single", correctIndex := some 0 } (JSAnswer.num 0)
    ∧ checkAnswer { id := 1, type := "single", correctIndex := some 0 } (JSAnswer.num 0) ≤ 1
    ∧ checkAnswer { id := 1, type := "single", correctIndex := some 0 } JSAnswer.undef = 0 :=
  checkAnswer_score_in_unit_interval _ _ (fun h => by simp at h)

/-- C1 counterexample: a multiple question with correct index set {0}
and the (well-typed) answer list [0,0] scores 2, outside [0,1], because
checkAnswer counts selections with multiplicity. -/
theorem checkAnswer_duplicate_selection_exceeds_one :
    checkAnswer { id := 1, type := "multiple", correctIndices := some [0] }
      (JSAnswer.list [0, 0]) = 2
    ∧ ¬(checkAnswer { id := 1, type := "multiple", correctIndices := some [0] }
          (JSAnswer.list [0, 0]) ≤ 1) := by
  constructor
  · simp [checkAnswer]
  · simp [checkAnswer]

/-- C2: for a multiple question checkAnswer computes
max(0, (s - w) / n) with n the number of stored correct indices, s the
answered indices counted in the correct set and w those counted outside
it (0 when n = 0), and on correct set {0,2} the answers [0,2], [0],
[0,1,2], [1] score 1, 1/2, 1/2 and 0. -/
theorem checkAnswer_multiple_formula (q : Question) (xs : List Int)
    (h : q.type = "multiple") :
    (checkAnswer q (JSAnswer.list xs) =
      if (q.correctIndices.getD []).length = 0 then 0
      else
        max 0 (((xs.countP (fun i => decide (i ∈ q.correctIndices.getD [])) : ℚ) -
                (xs.countP (fun i => decide (i ∉ q.correctIndices.getD [])) : ℚ)) /
               ((q.correctIndices.getD []).length : ℚ)))
    ∧ checkAnswer { id := 0, type := "multiple", correctIndices := some [0, 2] }
        (JSAnswer.list [0, 2]) = 1
    ∧ checkAnswer { id := 0, type := "multiple", correctIndices := some [0, 2] }
        (JSAnswer.list [0]) = 1/2
    ∧ checkAnswer { id := 0, type := "multiple", correctIndices := some [0, 2] }
        (JSAnswer.list [0, 1, 2]) = 1/2
    ∧ checkAnswer { id := 0, type := "multiple", correctIndices := some [0, 2] }
        (JSAnswer.list [1]) = 0
    ∧ checkAnswer { id := 0, type := "multiple", correctIndices := some [] }
        (JSAnswer.list [1]) = 0 := by
  refine ⟨?_, ?_, ?_, ?_, ?_, ?_⟩
  · simp [checkAnswer, h]
  · simp [checkAnswer]
  · simp [checkAnswer]; try norm_num
  · simp [checkAnswer]; try norm_num
  · simp [checkAnswer]; try norm_num
  · simp [checkAnswer]; try norm_num

/-- C2 witness: the formula instantiated at the concrete correct set
{0,2} and answer [0,1,2]. -/
theorem checkAnswer_multiple_formula_witness :
    checkAnswer { id := 0, type := "multiple", correctIndices := some [0, 2] }
      (JSAnswer.list [0, 1, 2]) =
      if (([0, 2] : List Int)).length = 0 then 0
      else
        max 0 (((([0, 1, 2] : List Int).countP
                  (fun i => decide (i ∈ ([0, 2] : List Int))) : ℚ) -
                ((([0, 1, 2] : List Int)).countP
                  (fun i => decide (i ∉ ([0, 2] : List Int))) : ℚ)) /
               ((([0, 2] : List Int)).length : ℚ)) :=
  (checkAnswer_multiple_formula
    { id := 0, type := "multiple", correctIndices := some [0, 2] } [0, 1, 2] rfl).1

/-- C3: the pass-rule evaluator passes every absent rule, passes a
percent rule exactly when the achieved percent reaches the threshold
(70.0 against 70 passes, 69.99 fails), and passes any other rule type
exactly when the fully-correct count reaches the threshold. -/
theorem checkPassRuleWithPartial_spec (r : PassRule) (p c : ℚ) :
    checkPassRuleWithPartial Option.none p c = true
    ∧ (r.type = "percent" →
        (checkPassRuleWithPartial (some r) p c = true ↔ p ≥ r.value))
    ∧ (r.type ≠ "percent" →
        (checkPassRuleWithPartial (some r) p c = true ↔ c ≥ r.value))
    ∧ checkPassRuleWithPartial (some { type := "percent", value := 70 }) 70 0 = true
    ∧ checkPassRuleWithPartial (some { type := "percent", value := 70 }) (6999/100) 0 = false
    ∧ checkPassRuleWithPartial (some { type := "absolute", value := 3 }) 0 3 = true := by
  refine ⟨rfl, ?_, ?_, ?_, ?_, ?_⟩
  · intro h; simp [checkPassRuleWithPartial, h]
  · intro h; simp [checkPassRuleWithPartial, h]
  · simp [checkPassRuleWithPartial]
  · norm_num [checkPassRuleWithPartial]
  · simp [checkPassRuleWithPartial]

/-- C3 witness: the percent characterization applied at threshold 70
and achieved percent 70. -/
theorem checkPassRuleWithPartial_spec_witness :
    checkPassRuleWithPartial (some { type := "percent", value := 70 }) 70 0 = true :=
  ((checkPassRuleWithPartial_spec { type := "percent", value := 70 } 70 0).2.1 rfl).mpr
    (by norm_num)

/-- C10: a question whose type tag is none of single, multiple,
matching, ranking falls through every branch of checkAnswer and scores
the defined value 0 for every answer. -/
theorem checkAnswer_unknown_type_zero (q : Question) (a : JSAnswer)
    (h1 : q.type ≠ "single") (h2 : q.type ≠ "multiple") (h3 : q.type ≠ "matching")
    (h4 : q.type ≠ "ranking") : checkAnswer q a = 0 := by
  cases a <;> simp [checkAnswer, h1, h2, h3, h4]

/-- C10 witness: a question of type essay with a numeric answer. -/
theorem checkAnswer_unknown_type_zero_witness :
    checkAnswer { id := 7, type := "essay" } (JSAnswer.num 3) = 0 :=
  checkAnswer_unknown_type_zero _ _ (by decide) (by decide) (by decide) (by decide)

lemma topicStep_eq (acc : List TopicData × Bool) (t : TopicData) :
    topicStep acc t = (acc.1 ++ [topicFinal t],
      acc.2 && !((topicFinal t).passed == some false)) := by
  unfold topicStep topicFinal
  cases hr : t.passRule with
  | none => simp
  | some r =>
    simp only []
    cases hp : checkPassRuleWithPartial (some r)
        (if t.possiblePoints > 0 then t.earnedPoints / t.possiblePoints * 100 else 0)
        (t.correct : ℚ) <;> simp [hp]

lemma foldl_topicStep (ts : List TopicData) :
    ∀ (l : List TopicData) (b : Bool),
      (ts.foldl topicStep (l, b)).1 = l ++ ts.map topicFinal
      ∧ (ts.foldl topicStep (l, b)).2
        = (b && (ts.map topicFinal).all (fun t => !(t.passed == some false))) := by
  induction ts with
  | nil => intro l b; simp
  | cons t ts ih =>
    intro l b
    rw [List.foldl_cons, topicStep_eq]
    obtain ⟨h1, h2⟩ := ih (l ++ [topicFinal t]) (b && !((topicFinal t).passed == some false))
    constructor
    · rw [h1]; simp
    · rw [h2]; simp [Bool.and_assoc]

/-- C4: whenever calculateResults returns a report, its percent is the
point-weighted earned / possible ratio times 100 (0 on an empty point
total), its passed flag holds exactly when the overall rule is met and
no topic result fails its own rule, and a topic's passed field is null
exactly when it has no rule and otherwise records its own rule check;
hence meeting the overall rule while one topic fails its rule gives
passed = false (see the witness for such an instance). -/
theorem calculateResults_spec (td : TestData) (fqs : List FlatQuestion)
    (answers : Nat → JSAnswer) (r : Report)
    (h : calculateResults td fqs answers = some r) :
    r.percent = (if r.possiblePoints > 0 then r.earnedPoints / r.possiblePoints * 100 else 0)
    ∧ (r.passed = true ↔
        (checkPassRuleWithPartial td.overallPassRule r.percent (r.correct : ℚ) = true
         ∧ ∀ t ∈ r.topicResults, t.passed ≠ some false))
    ∧ (∀ t ∈ r.topicResults,
        (t.passRule = Option.none ↔ t.passed = Option.none)
        ∧ (∀ rule, t.passRule = some rule →
            t.passed = some (checkPassRuleWithPartial (some rule) t.percent (t.correct : ℚ)))) := by
  unfold calculateResults at h
  cases hf : fqs.foldl (accumQuestion td.sections answers)
      (some { totalEarnedPoints := 0, totalPossiblePoints := 0, totalFullyCorrect := 0,
              totalQuestions := 0, topicData := [] }) with
  | none => rw [hf] at h; exact absurd h (by simp)
  | some a =>
    rw [hf] at h
    simp only [Option.some.injEq] at h
    obtain ⟨hl, hb⟩ := foldl_topicStep a.topicData [] true
    subst h
    refine ⟨rfl, ?_, ?_⟩
    · simp only [hb, hl, List.nil_append, Bool.true_and, Bool.and_eq_true,
        List.all_eq_true, Bool.not_eq_true', beq_eq_false_iff_ne, ne_eq]
    · intro t ht
      simp only [hl, List.nil_append, List.mem_map] at ht
      obtain ⟨t0, ht0, rfl⟩ := ht
      unfold topicFinal
      cases hr : t0.passRule with
      | none => simp
      | some rule0 =>
        simp only []
        constructor
        · simp
        · intro rule hrule
          simp only [Option.some.injEq] at hrule
          subst hrule
          simp

/-- C4 witness: on the two-topic fixture the overall percent rule (50)
is met at exactly 50 percent while topic B fails its 90-percent rule,
and the computed report has passed = false. -/
theorem calculateResults_spec_witness :
    calculateResults witTest witFlat witAnswers = some witReport
    ∧ witReport.passed = false
    ∧ checkPassRuleWithPartial witTest.overallPassRule witReport.percent
        (witReport.correct : ℚ) = true
    ∧ (witReport.percent =
        (if witReport.possiblePoints > 0 then
          witReport.earnedPoints / witReport.possiblePoints * 100 else 0)) := by
  refine ⟨?_, rfl, by norm_num [checkPassRuleWithPartial, witTest, witReport], ?_⟩
  · norm_num [calculateResults, accumQuestion, topicStep, checkAnswer, qPoints,
      checkPassRuleWithPartial, witTest, witFlat, witAnswers, witReport, bumpTopic]
  · exact (calculateResults_spec witTest witFlat witAnswers witReport
      (by norm_num [calculateResults, accumQuestion, topicStep, checkAnswer, qPoints,
        checkPassRuleWithPartial, witTest, witFlat, witAnswers, witReport, bumpTopic])).1

/-- C5: evaluation at the failing input.  With one second remaining and
the current single-choice question unanswered, the timer tick sets
timeExpired and calls submit, but submit still runs the
answer-presence validation, shows the answer-first toast and leaves the
attempt unsubmitted - the forced submission does not bypass validation
as the specification requires. -/
theorem updateTimer_expiry_blocked :
    (updateTimer expiryState).1.timeExpired = true
    ∧ (updateTimer expiryState).1.submitted = false
    ∧ (updateTimer expiryState).2 = [Effect.toast "Сначала ответьте на вопрос"] :=
  ⟨rfl, rfl, rfl⟩

/-- C7: once submitted is set, a further submit call returns the state
unchanged with no effects (so no render and no runtime writes), a timer
tick only clears the interval and never resubmits, and both transition
paths that set submitted also clear the timer interval. -/
theorem submit_latch (s : AppState) :
    (s.submitted = true → submit s = (s, []))
    ∧ (s.submitted = true → updateTimer s = (clearTimer s, []))
    ∧ (s.submitted = false → (submit s).1.submitted = true →
        (submit s).1.timerInterval = false)
    ∧ (s.submitted = false → (updateTimer s).1.submitted = true →
        (updateTimer s).1.timerInterval = false) := by
  have key : ∀ t : AppState, t.submitted = false → (submit t).1.submitted = true →
      (submit t).1.timerInterval = false := by
    intro t h0 h1
    by_cases hr : requireAnswer t
    · by_cases ht : t.timerInterval
      · simp [submit, h0, hr, ht, clearTimer]
      · simp only [Bool.not_eq_true] at ht
        simp [submit, h0, hr, ht, clearTimer]
    · simp [submit, h0, hr] at h1
  refine ⟨?_, ?_, key s, ?_⟩
  · intro h; simp [submit, h]
  · intro h; simp [updateTimer, h]
  · intro h0 h1
    simp only [updateTimer, h0] at h1 ⊢
    cases hr : s.remainingSeconds with
    | none => simp [hr, clearTimer] at h1 ⊢
    | some r =>
      simp only [hr] at h1 ⊢
      by_cases h2 : r ≤ 0
      · simp [h2, clearTimer, h0] at h1
      · by_cases h3 : r - 1 ≤ 0
        · simp only [h2, h3] at h1 ⊢
          norm_num at h1 ⊢
          exact key _ rfl h1
        · simp only [h2, h3] at h1
          norm_num at h1

/-- C7 witness: the latch applied to a concrete already-submitted
state. -/
theorem submit_latch_witness :
    submit { submitted := true } = ({ submitted := true }, [])
    ∧ updateTimer { submitted := true } = (clearTimer { submitted := true }, []) :=
  ⟨(submit_latch { submitted := true }).1 rfl,
   (submit_latch { submitted := true }).2.1 rfl⟩

lemma initTimer_phase (td : TestData) (s : AppState) :
    (initTimer td s).phase = s.phase := by
  unfold initTimer
  cases td.timeLimitMinutes with
  | none => rfl
  | some m => by_cases hm : m > 0 <;> simp [hm]

/-- C9 (amended): when a max-attempts limit is configured and attempts
remain, a successful start transition reaches the question phase,
increments the persisted attempts-used counter by exactly one and
writes the new counter to the runtime session object; when the limit is
exhausted the transition is refused with state and counter unchanged;
when no limit is configured the transition succeeds but the counter is
not touched (the code increments only under a configured limit - see
the counterexample). -/
theorem startTest_attempt_accounting (td : TestData) (susp : Option Nat)
    (s : AppState) :
    (jsTruthy td.maxAttempts = true →
      getAttemptsUsed susp < td.maxAttempts.getD 0 →
        (startTest td susp s).1.phase = "question"
        ∧ (startTest td susp s).2.1 = some (getAttemptsUsed susp + 1)
        ∧ Effect.suspendWrite (getAttemptsUsed susp + 1) ∈ (startTest td susp s).2.2)
    ∧ (jsTruthy td.maxAttempts = true →
      td.maxAttempts.getD 0 ≤ getAttemptsUsed susp →
        (startTest td susp s).1 = s ∧ (startTest td susp s).2.1 = susp)
    ∧ (jsTruthy td.maxAttempts = false →
        (startTest td susp s).1.phase = "question"
        ∧ (startTest td susp s).2.1 = susp) := by
  refine ⟨?_, ?_, ?_⟩
  · intro ht hlt
    have hleft : hasAttemptsLeft td susp = true := by
      simp [hasAttemptsLeft, ht, hlt]
    have hreg : registerAttemptStart td susp =
        (true, some (getAttemptsUsed susp + 1),
         [Effect.suspendWrite (getAttemptsUsed susp + 1)]) := by
      simp [registerAttemptStart, ht, Nat.not_le.mpr hlt]
    simp [startTest, hleft, hreg]
    exact initTimer_phase td _
  · intro ht hge
    have hleft : hasAttemptsLeft td susp = false := by
      simp [hasAttemptsLeft, ht, Nat.not_lt.mpr hge]
    simp [startTest, hleft]
  · intro ht
    have hleft : hasAttemptsLeft td susp = true := by
      simp [hasAttemptsLeft, ht]
    have hreg : registerAttemptStart td susp = (true, susp, []) := by
      simp [registerAttemptStart, ht]
    simp [startTest, hleft, hreg]
    exact initTimer_phase td _

/-- C9 witness: with a limit of 2 and 0 attempts used, the start
succeeds, the counter becomes 1 and the session write is emitted. -/
theorem startTest_attempt_accounting_witness :
    (startTest { sections := [], maxAttempts := some 2 } (some 0) {}).1.phase = "question"
    ∧ (startTest { sections := [], maxAttempts := some 2 } (some 0) {}).2.1 = some 1
    ∧ Effect.suspendWrite 1
        ∈ (startTest { sections := [], maxAttempts := some 2 } (some 0) {}).2.2 :=
  (startTest_attempt_accounting { sections := [], maxAttempts := some 2 } (some 0) {}).1
    rfl (by decide)

/-- C9 counterexample: with no configured max-attempts limit the start
transition succeeds (phase becomes question) but the persisted counter
is left untouched and no session write is emitted, refuting the claim
that every successful start increments and writes the counter. -/
theorem startTest_no_limit_counterexample :
    (startTest { sections := [] } Option.none {}).1.phase = "question"
    ∧ (startTest { sections := [] } Option.none {}).2.1 = Option.none
    ∧ (startTest { sections := [] } Option.none {}).2.2 = [Effect.render] :=
  ⟨rfl, rfl, rfl⟩

/-- C6 (amended): on completion finishScorm writes the rounded overall
percentage as the raw score with min 0 and max 100, the scaled score
equal to that rounded percentage over 100, completion status completed
and success status passed / failed.  (The source comments and call at
lines 1758-1760 report the percentage, not earned / possible points;
see the counterexample.) -/
theorem finishScorm_write_values (results : Report) (ints : List Interaction) :
    (finishScorm results ints).lookup "cmi.score.raw"
      = some (RtValue.num ((jsRound results.percent : ℤ) : ℚ))
    ∧ (finishScorm results ints).lookup "cmi.score.min" = some (RtValue.num 0)
    ∧ (finishScorm results ints).lookup "cmi.score.max" = some (RtValue.num 100)
    ∧ (finishScorm results ints).lookup "cmi.score.scaled"
      = some (RtValue.num (((jsRound results.percent : ℤ) : ℚ) / 100))
    ∧ (finishScorm results ints).lookup "cmi.completion_status"
      = some (RtValue.str "completed")
    ∧ (finishScorm results ints).lookup "cmi.success_status"
      = some (RtValue.str (if results.passed then "passed" else "failed")) := by
  refine ⟨?_, ?_, ?_, ?_, ?_, ?_⟩
  all_goals try norm_num [finishScorm, scormFinish, setScoreWrites, List.lookup]
  all_goals rfl

/-- C6 counterexample: a report with 1 earned of 2 possible points
(50 percent) is written as raw score 50 with max 100 - not as raw 1
with max 2 as the claim states. -/
theorem finishScorm_percent_not_points :
    (finishScorm
        { correct := 1, totalQuestions := 2, earnedPoints := 1, possiblePoints := 2,
          percent := 50, passed := true, topicResults := [] } []).lookup "cmi.score.raw"
      = some (RtValue.num 50)
    ∧ (finishScorm
        { correct := 1, totalQuestions := 2, earnedPoints := 1, possiblePoints := 2,
          percent := 50, passed := true, topicResults := [] } []).lookup "cmi.score.max"
      = some (RtValue.num 100)
    ∧ ((50 : ℚ) ≠ 1 ∧ (100 : ℚ) ≠ 2) := by
  refine ⟨?_, ?_, by norm_num, by norm_num⟩
  all_goals try norm_num [finishScorm, scormFinish, setScoreWrites, List.lookup, jsRound]
  all_goals rfl

lemma cross_perm (xs : List α) :
    ∀ (j : Nat) (a b : α), xs.get? j = some b →
      List.Perm (b :: xs.set j a) (a :: xs) := by
  induction xs with
  | nil => intro j a b h; simp at h
  | cons y ys ih =>
    intro j a b h
    cases j with
    | zero =>
      rw [List.get?_cons_zero] at h
      injection h with h
      subst h
      exact List.Perm.swap a y ys
    | succ k =>
      rw [List.get?_cons_succ] at h
      exact ((List.Perm.swap y b _).trans ((ih k a b h).cons y)).trans
        (List.Perm.swap a y ys)

lemma swap_set_perm (l : List α) :
    ∀ (i j : Nat) (a b : α), l.get? i = some a → l.get? j = some b →
      List.Perm ((l.set i b).set j a) l := by
  induction l with
  | nil => intro i j a b hi hj; simp at hi
  | cons x xs ih =>
    intro i j a b hi hj
    cases i with
    | zero =>
      cases j with
      | zero =>
        rw [List.get?_cons_zero] at hi hj
        injection hi with hi
        injection hj with hj
        subst hi; subst hj
        exact List.Perm.refl _
      | succ k =>
        rw [List.get?_cons_zero] at hi
        rw [List.get?_cons_succ] at hj
        injection hi with hi
        subst hi
        exact cross_perm xs k x b hj
    | succ m =>
      cases j with
      | zero =>
        rw [List.get?_cons_succ] at hi
        rw [List.get?_cons_zero] at hj
        injection hj with hj
        subst hj
        exact cross_perm xs m x a hi
      | succ k =>
        rw [List.get?_cons_succ] at hi hj
        exact (ih m k a b hi hj).cons x

lemma listSwap_perm (l : List α) (i j : Nat) : List.Perm (listSwap l i j) l := by
  unfold listSwap
  cases hi : l.get? i with
  | none => exact List.Perm.refl l
  | some a =>
    cases hj : l.get? j with
    | none => exact List.Perm.refl l
    | some b => exact swap_set_perm l i j a b hi hj

lemma fyAux_perm (rs : Nat → Nat) : ∀ (n : Nat) (arr : List α),
    List.Perm (fyAux rs arr n) arr := by
  intro n
  induction n with
  | zero => intro arr; exact List.Perm.refl arr
  | succ m ih =>
    intro arr
    exact (ih _).trans (listSwap_perm arr (m + 1) (rs (m + 1)))

lemma shuffle_perm (rs : Nat → Nat) (arr : List α) : List.Perm (shuffle rs arr) arr :=
  fyAux_perm rs _ arr

/-- C8: for every section and every stream of random swap choices, the
per-section draw of generateVariant has length min(drawCount, pool
size), every drawn question belongs to the pool, a duplicate-free pool
yields a duplicate-free draw, and a drawCount at least the pool size
draws the whole pool (as a permutation) without failing. -/
theorem drawSectionQuestions_spec (sec : TestSection) (rs : Nat → Nat) :
    (drawSectionQuestions sec rs).length = min sec.drawCount sec.questions.length
    ∧ (∀ q ∈ drawSectionQuestions sec rs, q ∈ sec.questions)
    ∧ (sec.questions.Nodup → (drawSectionQuestions sec rs).Nodup)
    ∧ (sec.questions.length ≤ sec.drawCount →
        List.Perm (drawSectionQuestions sec rs) sec.questions) := by
  have hperm := shuffle_perm rs sec.questions
  refine ⟨?_, ?_, ?_, ?_⟩
  · rw [drawSectionQuestions, List.length_take, hperm.length_eq]
  · intro q hq
    exact hperm.subset (List.take_subset _ _ hq)
  · intro hnd
    exact ((hperm.nodup_iff).mpr hnd).sublist (List.take_sublist _ _)
  · intro hle
    rw [drawSectionQuestions, List.take_of_length_le (by rw [hperm.length_eq]; exact hle)]
    exact hperm

/-- C8 witness: a 2-question pool with drawCount 3 under the constant
random stream draws min 3 2 questions and the whole pool. -/
theorem drawSectionQuestions_spec_witness :
    (drawSectionQuestions
        { topicId := 1, topicName := "T",
          questions := [{ id := 1, type := "single" }, { id := 2, type := "single" }],
          drawCount := 3 } (fun _ => 0)).length = min 3 2
    ∧ List.Perm (drawSectionQuestions
        { topicId := 1, topicName := "T",
          questions := [{ id := 1, type := "single" }, { id := 2, type := "single" }],
          drawCount := 3 } (fun _ => 0))
        [{ id := 1, type := "single" }, { id := 2, type := "single" }] :=
  ⟨(drawSectionQuestions_spec _ _).1,
   (drawSectionQuestions_spec _ _).2.2.2 (by decide)⟩

end Scorm
